import Mathlib

/-!
Verification of the client-side synchronization core of the Tokyo Anomaly
Monitoring System (TAMS): the Anomaly data model and its zod schemas
(`src/shared/types/anomaly.ts`), the capture mutation flow
(`useCaptureAnomaly`), the SSE push subscriber (`useAnomalyStream`),
the bulk-read gateway (`fetchAnomalies` and `GET /api/anomalies`), and the
capture route (`POST /api/anomalies/[id]/capture`), shallowly embedded as
executable Lean definitions.
-/

namespace TAMS

/-- The `ThreatLevel` enum from `src/shared/types/anomaly.ts`. -/
inductive ThreatLevel where
  | low
  | medium
  | high
  | critical
deriving DecidableEq, Repr

/-- The `AnomalyStatus` enum from `src/shared/types/anomaly.ts`. -/
inductive AnomalyStatus where
  | active
  | captured
deriving DecidableEq, Repr

/-- The `Anomaly` entity: `{ id, name, threatLevel, location, status }`. -/
structure Anomaly where
  id : String
  name : String
  threatLevel : ThreatLevel
  location : String
  status : AnomalyStatus
deriving DecidableEq, Repr

/-- Untyped JSON values, the domain of the zod validators and of the wire
bodies exchanged with the server routes. -/
inductive JValue where
  | jnull
  | jbool (b : Bool)
  | jnum (n : Int)
  | jstr (s : String)
  | jarr (xs : List JValue)
  | jobj (fields : List (String × JValue))
deriving Repr

/-- JavaScript object property access: the value of the first field named
`k`, or `none` (`undefined`) when absent. -/
def jlookup (fields : List (String × JValue)) (k : String) : Option JValue :=
  (fields.find? (fun p => p.1 = k)).map Prod.snd

/-- The wire spelling of each `ThreatLevel` value. -/
def ThreatLevel.toWire : ThreatLevel → String
  | .low => "low"
  | .medium => "medium"
  | .high => "high"
  | .critical => "critical"

/-- The wire spelling of each `AnomalyStatus` value. -/
def AnomalyStatus.toWire : AnomalyStatus → String
  | .active => "active"
  | .captured => "captured"

/-- Serialization of an `Anomaly` record to its JSON wire shape. -/
def Anomaly.toJValue (a : Anomaly) : JValue :=
  .jobj
    [("id", .jstr a.id),
     ("name", .jstr a.name),
     ("threatLevel", .jstr a.threatLevel.toWire),
     ("location", .jstr a.location),
     ("status", .jstr a.status.toWire)]

/-- Embeds `threatLevelSchema = z.enum(['low', 'medium', 'high', 'critical'])`. -/
def threatLevelSchema : JValue → Option ThreatLevel
  | .jstr "low" => some .low
  | .jstr "medium" => some .medium
  | .jstr "high" => some .high
  | .jstr "critical" => some .critical
  | _ => none

/-- Embeds `anomalyStatusSchema = z.enum(['active', 'captured'])`. -/
def anomalyStatusSchema : JValue → Option AnomalyStatus
  | .jstr "active" => some .active
  | .jstr "captured" => some .captured
  | _ => none

/-- Embeds `anomalySchema = z.object({ id: z.string(), name: z.string(),
threatLevel: threatLevelSchema, location: z.string(),
status: anomalyStatusSchema })`; unknown extra keys are tolerated
(zod strips them). -/
def anomalySchema (v : JValue) : Option Anomaly :=
  match v with
  | .jobj fields =>
    match jlookup fields "id", jlookup fields "name",
          jlookup fields "threatLevel", jlookup fields "location",
          jlookup fields "status" with
    | some (.jstr i), some (.jstr n), some tl, some (.jstr loc), some st =>
      match threatLevelSchema tl, anomalyStatusSchema st with
      | some t, some s => some ⟨i, n, t, loc, s⟩
      | _, _ => none
    | _, _, _, _, _ => none
  | _ => none

/-- Embeds `anomaliesArraySchema = z.array(anomalySchema)`. -/
def anomaliesArraySchema (v : JValue) : Option (List Anomaly) :=
  match v with
  | .jarr xs => xs.mapM anomalySchema
  | _ => none

/-- Validated payload of `threatLevelChangeEventSchema`. -/
structure ThreatLevelChangeEvent where
  anomalyId : String
  newThreatLevel : ThreatLevel
deriving DecidableEq, Repr

/-- Embeds `threatLevelChangeEventSchema = z.object({ type:
z.literal('threat_level_change'), anomalyId: z.string(), newThreatLevel:
threatLevelSchema })`. -/
def threatLevelChangeEventSchema (v : JValue) : Option ThreatLevelChangeEvent :=
  match v with
  | .jobj fields =>
    match jlookup fields "type", jlookup fields "anomalyId",
          jlookup fields "newThreatLevel" with
    | some (.jstr "threat_level_change"), some (.jstr aid), some tl =>
      (threatLevelSchema tl).map (fun t => ⟨aid, t⟩)
    | _, _, _ => none
  | _ => none

/-- Parsed result of `captureAnomalyResponseSchema` (its union branches). -/
inductive CaptureAnomalyResponse where
  | ok (anomaly : Anomaly)
  | err (msg : String)
deriving DecidableEq, Repr

/-- Embeds `captureAnomalyResponseSchema = z.union([z.object({ success:
z.literal(true), anomaly: anomalySchema }), z.object({ success:
z.literal(false), error: z.string() })])`. -/
def captureAnomalyResponseSchema (v : JValue) : Option CaptureAnomalyResponse :=
  match v with
  | .jobj fields =>
    match jlookup fields "success" with
    | some (.jbool true) =>
      (match jlookup fields "anomaly" with
       | some av => (anomalySchema av).map .ok
       | none => none)
    | some (.jbool false) =>
      (match jlookup fields "error" with
       | some (.jstr e) => some (.err e)
       | _ => none)
    | _ => none
  | _ => none

/-! ### Shared API client (`src/shared/api/client.ts`) -/

/-- The `ApiError` class from the shared API client: message, HTTP status, optional
code. -/
structure ApiError where
  message : String
  status : Nat
  code : Option String
deriving DecidableEq, Repr

/-- Outcome of a remote HTTP call as seen by the caller of `get`/`post`:
either the promise rejects with an `ApiError` (network failure, timeout,
non-2xx), or it resolves with the parsed JSON body. -/
inductive RemoteResult where
  | rejected (e : ApiError)
  | resolved (body : JValue)

/-! ### Mutation Coordinator (`useCaptureAnomaly`, capture-anomaly model) -/

/-- Errors that make `captureAnomalyApi` reject: a thrown/propagated
`ApiError`, or the `ZodError` thrown by
`captureAnomalyResponseSchema.parse`. -/
inductive CaptureError where
  | api (e : ApiError)
  | zod
deriving DecidableEq, Repr

/-- Embeds `captureAnomalyApi`: posts to `/api/anomalies/{id}/capture`, validates
the response with `captureAnomalyResponseSchema.parse` (throwing on
mismatch), and throws `ApiError(validated.error, 500, 'CAPTURE_FAILED')`
when the validated body has `success: false`. -/
def captureAnomalyApi (r : RemoteResult) : Except CaptureError CaptureAnomalyResponse :=
  match r with
  | .rejected e => .error (.api e)
  | .resolved body =>
    match captureAnomalyResponseSchema body with
    | none => .error .zod
    | some (.err msg) => .error (.api ⟨msg, 500, some "CAPTURE_FAILED"⟩)
    | some (.ok a) => .ok (.ok a)

/-- The TanStack Query cache entry under `ANOMALIES_QUERY_KEY`:
`Anomaly[] | undefined`. -/
abbrev AnomaliesCache := Option (List Anomaly)

/-- The per-record updater of the optimistic write in `onMutate`:
`anomaly.id === anomalyId ? { ...anomaly, status: CAPTURED } : anomaly`. -/
def captureUpd (anomalyId : String) (a : Anomaly) : Anomaly :=
  if a.id = anomalyId then { a with status := .captured } else a

/-- The `setQueryData` updater of `onMutate`: `(old) => { if (!old) return
old; return old.map(...) }`. -/
def captureOptimistic (anomalyId : String) (old : AnomaliesCache) : AnomaliesCache :=
  match old with
  | none => none
  | some l => some (l.map (captureUpd anomalyId))

/-- The `CaptureContext { previousAnomalies: Anomaly[] | undefined }` returned
by `onMutate` for a later rollback. -/
structure CaptureContext where
  previousAnomalies : AnomaliesCache
deriving DecidableEq, Repr

/-- Embeds `onMutate(anomalyId)`: snapshots the current cache as the rollback
context, then applies the optimistic update. Returns (context, new
cache). -/
def captureOnMutate (anomalyId : String) (cache : AnomaliesCache) :
    CaptureContext × AnomaliesCache :=
  (⟨cache⟩, captureOptimistic anomalyId cache)

/-- Embeds `onError(error, anomalyId, context)`: restores
`context.previousAnomalies` via `setQueryData` when the snapshot is
defined, otherwise leaves the cache alone (the toast side effect is not
part of the cache state). -/
def captureOnError (ctx : CaptureContext) (cache : AnomaliesCache) : AnomaliesCache :=
  match ctx.previousAnomalies with
  | some prev => some prev
  | none => cache

/-- One full `mutate(anomalyId)` run against a cache, with the remote call
outcome supplied as `remote`: `onMutate` fires first (optimistic write),
then `captureAnomalyApi` settles, then `onError` rolls back on failure
(`onSuccess` performs no cache write; `onSettled` only invalidates, i.e.
schedules a refetch, which is outside this state). Returns (cache after
the optimistic write — the state observable before the remote call
resolves, cache after settlement, the mutation outcome). -/
def captureMutate (anomalyId : String) (remote : RemoteResult) (cache : AnomaliesCache) :
    AnomaliesCache × AnomaliesCache × Except CaptureError CaptureAnomalyResponse :=
  let step := captureOnMutate anomalyId cache
  match captureAnomalyApi remote with
  | .error e => (step.2, captureOnError step.1 step.2, .error e)
  | .ok r => (step.2, step.2, .ok r)

/-! ### Push Subscriber (`useAnomalyStream`, realtime-updates model) -/

/-- The hook's options with their source defaults:
`reconnectDelay = 3000`, `maxReconnectAttempts = 10`. -/
structure StreamConfig where
  reconnectDelay : Nat := 3000
  maxReconnectAttempts : Nat := 10
deriving DecidableEq, Repr

/-- The mutable state of one `useAnomalyStream` instance:
`eventSourceRef` (whether a channel handle is open),
`reconnectAttemptsRef`, `reconnectTimeoutRef` (a pending reconnect timer
and its delay), the `isConnected` flag, and the anomalies cache the
handlers write through `queryClient`. -/
structure StreamState where
  eventSource : Bool
  reconnectAttempts : Nat
  pendingTimer : Option Nat
  isConnected : Bool
  cache : AnomaliesCache
deriving DecidableEq, Repr

/-- The full event handed to the caller-supplied `onThreatLevelChange`
callback: the schema-validated base spread together with the raw
`anomalyName` and `previousThreatLevel` properties of the message. -/
structure FullThreatLevelChangeEvent where
  base : ThreatLevelChangeEvent
  anomalyName : Option JValue
  previousThreatLevel : Option JValue
deriving Repr

/-- The per-record updater of `handleThreatLevelChange`:
`anomaly.id === event.anomalyId ? { ...anomaly, threatLevel:
event.newThreatLevel } : anomaly`. -/
def threatLevelUpd (ev : ThreatLevelChangeEvent) (a : Anomaly) : Anomaly :=
  if a.id = ev.anomalyId then { a with threatLevel := ev.newThreatLevel } else a

/-- Embeds `handleThreatLevelChange(event)`: merges the new threat level into the
cache via `setQueryData` (`undefined` stays `undefined`) and invokes the
optional caller-supplied callback with the full event. Returns (new
cache, the callback invocation, if any handler is installed it receives
exactly this payload). -/
def handleThreatLevelChange (ev : FullThreatLevelChangeEvent) (cache : AnomaliesCache) :
    AnomaliesCache × Option FullThreatLevelChangeEvent :=
  (match cache with
   | none => none
   | some l => some (l.map (threatLevelUpd ev.base)),
   some ev)

/-- An inbound `message` event's `data` text: either not valid JSON
(`JSON.parse` throws) or a parsed JSON value. -/
inductive RawMessage where
  | malformed
  | json (v : JValue)

/-- Embeds `eventSource.onmessage`: `JSON.parse` inside try/catch (parse errors
are logged and swallowed); when `data.type === 'threat_level_change'`, the
payload is `safeParse`d against `threatLevelChangeEventSchema` and on
success merged via `handleThreatLevelChange`; schema failures and all
other `type`s are silently ignored. Never closes the channel and never
propagates an error. Returns (new state, callback invocation). -/
def streamOnMessage (raw : RawMessage) (s : StreamState) :
    StreamState × Option FullThreatLevelChangeEvent :=
  match raw with
  | .malformed => (s, none)
  | .json v =>
    match v with
    | .jobj fields =>
      match jlookup fields "type" with
      | some (.jstr "threat_level_change") =>
        (match threatLevelChangeEventSchema (.jobj fields) with
         | some base =>
           let ev : FullThreatLevelChangeEvent :=
             ⟨base, jlookup fields "anomalyName",
              jlookup fields "previousThreatLevel"⟩
           let r := handleThreatLevelChange ev s.cache
           ({ s with cache := r.1 }, r.2)
         | none => (s, none))
      | _ => (s, none)
    | _ => (s, none)

/-- Embeds `eventSource.onopen`: resets the reconnect-attempt counter and sets
`isConnected`. -/
def streamOnOpen (s : StreamState) : StreamState :=
  { s with reconnectAttempts := 0, isConnected := true }

/-- Embeds `connect()`: a no-op when a channel handle already exists, otherwise
creates a new `EventSource` (the `enabled`/`window` guards are assumed
satisfied). -/
def streamConnect (s : StreamState) : StreamState :=
  if s.eventSource then s else { s with eventSource := true }

/-- Embeds `eventSource.onerror`: closes the channel, clears `isConnected`, and —
only while `reconnectAttempts < maxReconnectAttempts` — increments the
counter and schedules a reconnect timer for `reconnectDelay`. -/
def streamOnError (cfg : StreamConfig) (s : StreamState) : StreamState :=
  let s1 := { s with eventSource := false, isConnected := false }
  if s1.reconnectAttempts < cfg.maxReconnectAttempts then
    { s1 with reconnectAttempts := s1.reconnectAttempts + 1,
              pendingTimer := some cfg.reconnectDelay }
  else s1

/-- The scheduled reconnect timer firing: consumes the pending timer and
runs `connect()`. -/
def streamTimerFire (s : StreamState) : StreamState :=
  match s.pendingTimer with
  | some _ => streamConnect { s with pendingTimer := none }
  | none => s

/-- Embeds `disconnect()`: clears any pending reconnect timer, closes an
open channel, resets the attempt counter and the connected flag. The cache is
untouched. -/
def streamDisconnect (s : StreamState) : StreamState :=
  { s with pendingTimer := none, eventSource := false,
           reconnectAttempts := 0, isConnected := false }

/-- Channel-originated events a live subscription can receive. -/
inductive StreamEvent where
  | openEv
  | errorEv
  | messageEv (raw : RawMessage)
  | timerEv

/-- One event delivery: `open`, `error` and `message` can only fire on an
existing channel handle, the timer callback only when a timer is pending
(the firing itself consumes it). -/
def streamStep (cfg : StreamConfig) (ev : StreamEvent) (s : StreamState) : StreamState :=
  match ev with
  | .openEv => if s.eventSource then streamOnOpen s else s
  | .errorEv => if s.eventSource then streamOnError cfg s else s
  | .messageEv raw => if s.eventSource then (streamOnMessage raw s).1 else s
  | .timerEv => streamTimerFire s

/-- Delivering a sequence of channel events. -/
def streamRun (cfg : StreamConfig) (evs : List StreamEvent) (s : StreamState) : StreamState :=
  evs.foldl (fun st e => streamStep cfg e st) s

/-- One consecutive-failure cycle: a channel error followed by the
scheduled reconnect timer firing. -/
def errRound (cfg : StreamConfig) (s : StreamState) : StreamState :=
  streamStep cfg .timerEv (streamStep cfg .errorEv s)

/-! ### Server routes and the fetch gateway -/

/-- An HTTP response produced by a route handler: status plus JSON body. -/
structure RouteResponse where
  status : Nat
  body : JValue

/-- The `{ success: false, error: msg }` body. -/
def errBody (msg : String) : JValue :=
  .jobj [("success", .jbool false), ("error", .jstr msg)]

/-- The in-memory store of `GET /api/anomalies` (`mockAnomalies`): ten
records. -/
def mockAnomalies : List Anomaly :=
  [⟨"1", "Kitsune", .high, "Shibuya District", .active⟩,
   ⟨"2", "Tengu", .critical, "Mount Takao", .active⟩,
   ⟨"3", "Kappa", .medium, "Sumida River", .active⟩,
   ⟨"4", "Oni", .critical, "Asakusa Temple", .active⟩,
   ⟨"5", "Yurei", .low, "Yanaka Cemetery", .captured⟩,
   ⟨"6", "Tanuki", .low, "Ueno Park", .active⟩,
   ⟨"7", "Jorōgumo", .high, "Akihabara", .active⟩,
   ⟨"8", "Nue", .medium, "Shinjuku Station", .active⟩,
   ⟨"9", "Rokurokubi", .low, "Harajuku", .captured⟩,
   ⟨"10", "Gashadokuro", .critical, "Tokyo Tower", .active⟩]

/-- Embeds `GET /api/anomalies`: validates the store through
`anomaliesArraySchema.parse` and wraps it in the
`{ success: true, data }` envelope; a validation throw yields a 500
`{ success: false, error }` body. -/
def routeGETAnomalies (anomalies : List Anomaly) : RouteResponse :=
  match anomaliesArraySchema (.jarr (anomalies.map Anomaly.toJValue)) with
  | some validated =>
    ⟨200, .jobj [("success", .jbool true),
                 ("data", .jarr (validated.map Anomaly.toJValue))]⟩
  | none => ⟨500, errBody "Internal server error: data validation failed"⟩

/-- Possible failures of `fetchAnomalies`: the `ZodError` thrown by
`anomaliesArraySchema.parse` (a validation error), or the `ApiError` the
`get` helper rejected with (transport/timeout/non-2xx). -/
inductive FetchError where
  | validation
  | transport (e : ApiError)
deriving DecidableEq, Repr

/-- Embeds `fetchAnomalies` from `AnomalyList.tsx`: awaits
`get('/api/anomalies')` (which resolves with the parsed response body) and
validates that whole body with `anomaliesArraySchema.parse`. -/
def fetchAnomalies (getResult : RemoteResult) : Except FetchError (List Anomaly) :=
  match getResult with
  | .rejected e => .error (.transport e)
  | .resolved body =>
    match anomaliesArraySchema body with
    | some l => .ok l
    | none => .error .validation

/-- Embeds `Array.prototype.findIndex` over the anomaly store: index of the first
record satisfying `p`, `none` standing for `-1`. -/
def findIndexBy (p : Anomaly → Bool) : List Anomaly → Option Nat
  | [] => none
  | a :: rest => if p a then some 0 else (findIndexBy p rest).map (· + 1)

/-- Embeds `POST /api/anomalies/[id]/capture` with the `Math.random()` sample
supplied as `rand`: 404 when the id is unknown, 400 when the record is
already captured, a simulated 500 when `rand < 0.3` (store unchanged),
otherwise the store entry is replaced by its captured copy, re-validated
through `anomalySchema.parse`, and returned in a
`{ success: true, anomaly }` body. Returns (response, store after the
call). -/
def capturePOST (id : String) (rand : ℚ) (anomalies : List Anomaly) :
    RouteResponse × List Anomaly :=
  match findIndexBy (fun a => a.id == id) anomalies with
  | none =>
    (⟨404, errBody ("Anomaly with id \"" ++ id ++ "\" not found")⟩, anomalies)
  | some i =>
    match anomalies[i]? with
    | none =>
      -- unreachable: `findIndexBy` only returns indices inside the list
      (⟨404, errBody ("Anomaly with id \"" ++ id ++ "\" not found")⟩, anomalies)
    | some anomaly =>
      if anomaly.status = .captured then
        (⟨400, errBody ("Anomaly \"" ++ anomaly.name ++ "\" is already captured")⟩,
         anomalies)
      else if rand < 3 / 10 then
        (⟨500, errBody
            ("Capture failed! " ++ anomaly.name ++ " escaped during the capture attempt")⟩,
         anomalies)
      else
        let updated : Anomaly := { anomaly with status := .captured }
        match anomalySchema updated.toJValue with
        | some validated =>
          (⟨200, .jobj [("success", .jbool true),
                        ("anomaly", validated.toJValue)]⟩,
           anomalies.set i updated)
        | none =>
          (⟨500, errBody "Internal server error: data validation failed"⟩,
           anomalies.set i updated)

/-! ## Helper lemmas -/

/-- Validating the wire form of a well-typed `Anomaly` succeeds and
returns the same record. -/
theorem anomalySchema_toJValue (a : Anomaly) : anomalySchema a.toJValue = some a := by
  rcases a with ⟨i, n, t, loc, st⟩
  cases t <;> cases st <;> rfl

/-- The updater `captureUpd` leaves records with a different id untouched. -/
theorem captureUpd_ne {anomalyId : String} {a : Anomaly} (h : a.id ≠ anomalyId) :
    captureUpd anomalyId a = a := by
  simp [captureUpd, h]

/-- The search `findIndexBy` only returns indices of records satisfying the
predicate. -/
theorem findIndexBy_some {p : Anomaly → Bool} {l : List Anomaly} {i : Nat}
    (h : findIndexBy p l = some i) : ∃ a, l[i]? = some a ∧ p a = true := by
  induction l generalizing i with
  | nil => simp [findIndexBy] at h
  | cons x xs ih =>
    by_cases hx : p x
    · simp [findIndexBy, hx] at h
      exact ⟨x, by simp [← h], hx⟩
    · simp [findIndexBy, hx] at h
      rcases h with ⟨j, hj, rfl⟩
      rcases ih hj with ⟨a, ha, hpa⟩
      exact ⟨a, by simpa using ha, hpa⟩

/-- A message accepted by `threatLevelChangeEventSchema` necessarily
carries the literal `type: "threat_level_change"`. -/
theorem tlceSchema_type {fields : List (String × JValue)} {ev : ThreatLevelChangeEvent}
    (h : threatLevelChangeEventSchema (.jobj fields) = some ev) :
    jlookup fields "type" = some (.jstr "threat_level_change") := by
  simp only [threatLevelChangeEventSchema] at h
  split at h
  · assumption
  · exact absurd h (by simp)

/-- The handler `eventSource.onmessage` writes only the cache: the channel handle, the
reconnect bookkeeping and the connected flag are untouched by any
message. -/
theorem streamOnMessage_only_cache (raw : RawMessage) (s : StreamState) :
    (streamOnMessage raw s).1.eventSource = s.eventSource ∧
    (streamOnMessage raw s).1.reconnectAttempts = s.reconnectAttempts ∧
    (streamOnMessage raw s).1.pendingTimer = s.pendingTimer ∧
    (streamOnMessage raw s).1.isConnected = s.isConnected := by
  cases raw with
  | malformed => exact ⟨rfl, rfl, rfl, rfl⟩
  | json v =>
    cases v
    case jobj fields =>
      simp only [streamOnMessage]
      split
      · split <;> exact ⟨rfl, rfl, rfl, rfl⟩
      · exact ⟨rfl, rfl, rfl, rfl⟩
    all_goals exact ⟨rfl, rfl, rfl, rfl⟩

/-- A dead subscription — no channel handle and no pending timer — is
stuck: no channel event sequence changes its state. -/
theorem streamRun_stuck (cfg : StreamConfig) (s : StreamState)
    (hES : s.eventSource = false) (hT : s.pendingTimer = none) :
    ∀ evs, streamRun cfg evs s = s := by
  intro evs
  induction evs with
  | nil => rfl
  | cons e rest ih =>
    have hstep : streamStep cfg e s = s := by
      cases e <;> simp [streamStep, hES, streamTimerFire, hT]
    simpa [streamRun, hstep] using ih

end TAMS

namespace TAMS

/-! ## Claim theorems -/

/-- Claim C7 (schema round-trip): validating any well-formed `Anomaly`
object with `anomalySchema` succeeds and returns it unchanged; validation
fails on any object missing one of the five required fields and on any
object whose `threatLevel` or `status` field is outside its enum. -/
theorem anomaly_schema_roundtrip :
    (∀ a : Anomaly, anomalySchema a.toJValue = some a) ∧
    (∀ fields : List (String × JValue),
      (jlookup fields "id" = none ∨ jlookup fields "name" = none ∨
       jlookup fields "threatLevel" = none ∨ jlookup fields "location" = none ∨
       jlookup fields "status" = none) →
      anomalySchema (.jobj fields) = none) ∧
    (∀ fields tv, jlookup fields "threatLevel" = some tv →
      threatLevelSchema tv = none → anomalySchema (.jobj fields) = none) ∧
    (∀ fields sv, jlookup fields "status" = some sv →
      anomalyStatusSchema sv = none → anomalySchema (.jobj fields) = none) := by
  refine ⟨anomalySchema_toJValue, ?_, ?_, ?_⟩
  · intro fields h
    simp only [anomalySchema]
    split
    · rcases h with h | h | h | h | h <;> simp_all
    · rfl
  · intro fields tv hl hs
    simp only [anomalySchema]
    split
    · split
      · simp_all
      · rfl
    · rfl
  · intro fields sv hl hs
    simp only [anomalySchema]
    split
    · split
      · simp_all
      · rfl
    · rfl

/-- Witness for C7 at concrete inputs: the record `Kitsune` round-trips, a
record missing `name` is rejected, and an out-of-enum `threatLevel` is
rejected. -/
theorem anomaly_schema_roundtrip_witness :
    anomalySchema (Anomaly.toJValue ⟨"1", "Kitsune", .high, "Shibuya District", .active⟩)
      = some ⟨"1", "Kitsune", .high, "Shibuya District", .active⟩ ∧
    jlookup [("id", JValue.jstr "1")] "name" = none ∧
    anomalySchema (.jobj [("id", JValue.jstr "1")]) = none ∧
    jlookup [("id", JValue.jstr "1"), ("name", JValue.jstr "K"),
             ("threatLevel", JValue.jstr "ultra"), ("location", JValue.jstr "X"),
             ("status", JValue.jstr "active")] "threatLevel" = some (JValue.jstr "ultra") ∧
    threatLevelSchema (JValue.jstr "ultra") = none ∧
    anomalySchema (.jobj [("id", JValue.jstr "1"), ("name", JValue.jstr "K"),
             ("threatLevel", JValue.jstr "ultra"), ("location", JValue.jstr "X"),
             ("status", JValue.jstr "active")]) = none :=
  ⟨anomaly_schema_roundtrip.1 ⟨"1", "Kitsune", .high, "Shibuya District", .active⟩,
   rfl,
   anomaly_schema_roundtrip.2.1 [("id", JValue.jstr "1")] (Or.inr (Or.inl rfl)),
   rfl, rfl,
   anomaly_schema_roundtrip.2.2.1 _ (JValue.jstr "ultra") rfl rfl⟩

/-- Claim C10 (undefined-cache safety): invoking capture while the anomalies
cache holds no list leaves the cache `undefined` through the optimistic
write (the updater returns the old value), records an `undefined`
snapshot, makes the rollback step skip restoration, still settles the
remote call, and never throws (the embedded flow is a total function). -/
theorem capture_undefined_cache_safe (anomalyId : String) (remote : RemoteResult) :
    (captureOnMutate anomalyId none).2 = none ∧
    (captureOnMutate anomalyId none).1.previousAnomalies = none ∧
    (∀ cache, captureOnError ⟨none⟩ cache = cache) ∧
    (captureMutate anomalyId remote none).1 = none ∧
    (captureMutate anomalyId remote none).2.1 = none ∧
    (captureMutate anomalyId remote none).2.2 = captureAnomalyApi remote := by
  refine ⟨rfl, rfl, fun cache => rfl, ?_, ?_, ?_⟩ <;>
  · unfold captureMutate
    cases captureAnomalyApi remote <;> rfl

/-- Claim C1 (optimistic rollback): with the cache holding a list whose
`i`-th record is the ACTIVE anomaly `X`, invoking capture on `X` puts
`{ X with status := CAPTURED }` at position `i` of the cache before the
remote call resolves, and when the remote call fails (a rejected promise,
a `success: false` body, or a success body failing schema validation —
exactly the `error` outcomes of `captureAnomalyApi`) the settled cache is
the pre-mutation snapshot itself, so `X` is ACTIVE again and every other
record is unchanged. -/
theorem capture_optimistic_rollback
    (l : List Anomaly) (i : Nat) (X : Anomaly) (remote : RemoteResult) (e : CaptureError)
    (hX : l[i]? = some X) (_hact : X.status = .active)
    (hfail : captureAnomalyApi remote = .error e) :
    (captureMutate X.id remote (some l)).1 = some (l.map (captureUpd X.id)) ∧
    (l.map (captureUpd X.id))[i]? = some { X with status := .captured } ∧
    (captureMutate X.id remote (some l)).2.1 = some l := by
  refine ⟨?_, ?_, ?_⟩
  · simp [captureMutate, captureOnMutate, captureOptimistic, hfail]
  · rw [List.getElem?_map, hX]
    simp [captureUpd]
  · simp [captureMutate, captureOnMutate, captureOptimistic, captureOnError, hfail]

/-- Witness for C1: capturing Kitsune out of a one-record store against a
remote `success: false` body rolls the store back to the snapshot. -/
theorem capture_optimistic_rollback_witness :
    ([⟨"1", "Kitsune", .high, "Shibuya District", .active⟩] :
        List Anomaly)[0]? = some ⟨"1", "Kitsune", .high, "Shibuya District", .active⟩ ∧
    (⟨"1", "Kitsune", ThreatLevel.high, "Shibuya District", AnomalyStatus.active⟩ :
        Anomaly).status = .active ∧
    captureAnomalyApi (.resolved (errBody "Capture failed")) =
      .error (.api ⟨"Capture failed", 500, some "CAPTURE_FAILED"⟩) ∧
    ((captureMutate "1" (.resolved (errBody "Capture failed"))
        (some [⟨"1", "Kitsune", .high, "Shibuya District", .active⟩])).1 =
      some ([⟨"1", "Kitsune", .high, "Shibuya District", .active⟩].map (captureUpd "1")) ∧
    ([(⟨"1", "Kitsune", .high, "Shibuya District", .active⟩ : Anomaly)].map
        (captureUpd "1"))[0]? =
      some ⟨"1", "Kitsune", .high, "Shibuya District", .captured⟩ ∧
    (captureMutate "1" (.resolved (errBody "Capture failed"))
        (some [⟨"1", "Kitsune", .high, "Shibuya District", .active⟩])).2.1 =
      some [⟨"1", "Kitsune", .high, "Shibuya District", .active⟩]) :=
  ⟨rfl, rfl, rfl,
   capture_optimistic_rollback
     [⟨"1", "Kitsune", .high, "Shibuya District", .active⟩] 0
     ⟨"1", "Kitsune", .high, "Shibuya District", .active⟩
     (.resolved (errBody "Capture failed"))
     (.api ⟨"Capture failed", 500, some "CAPTURE_FAILED"⟩) rfl rfl rfl⟩

/-- Claim C8 (independent-id isolation): capturing `anomalyId` never changes
any record `Y` with a different id — `Y` sits unchanged (status, threat
level, name, location) at its position both in the optimistic state and in
the settled state, whatever the remote outcome. -/
theorem capture_independent_id_isolation
    (l : List Anomaly) (anomalyId : String) (remote : RemoteResult)
    (i : Nat) (Y : Anomaly) (hY : l[i]? = some Y) (hne : Y.id ≠ anomalyId) :
    (∃ lopt, (captureMutate anomalyId remote (some l)).1 = some lopt ∧
      lopt[i]? = some Y) ∧
    (∃ lset, (captureMutate anomalyId remote (some l)).2.1 = some lset ∧
      lset[i]? = some Y) := by
  have hmap : (l.map (captureUpd anomalyId))[i]? = some Y := by
    rw [List.getElem?_map, hY]
    simp [captureUpd_ne hne]
  cases hapi : captureAnomalyApi remote with
  | error e =>
    refine ⟨⟨l.map (captureUpd anomalyId), ?_, hmap⟩, ⟨l, ?_, hY⟩⟩ <;>
      simp [captureMutate, captureOnMutate, captureOptimistic, captureOnError, hapi]
  | ok r =>
    refine ⟨⟨l.map (captureUpd anomalyId), ?_, hmap⟩,
            ⟨l.map (captureUpd anomalyId), ?_, hmap⟩⟩ <;>
      simp [captureMutate, captureOnMutate, captureOptimistic, hapi]

/-- Witness for C8: capturing id `"1"` leaves the distinct record `Tanuki`
(id `"6"`) unchanged in both the optimistic and the settled store. -/
theorem capture_independent_id_isolation_witness :
    ([⟨"1", "Kitsune", .high, "Shibuya District", .active⟩,
      ⟨"6", "Tanuki", .low, "Ueno Park", .active⟩] : List Anomaly)[1]? =
      some ⟨"6", "Tanuki", .low, "Ueno Park", .active⟩ ∧
    ("6" : String) ≠ "1" ∧
    ((∃ lopt, (captureMutate "1" (.rejected ⟨"Request timeout", 408, some "TIMEOUT"⟩)
        (some [⟨"1", "Kitsune", .high, "Shibuya District", .active⟩,
               ⟨"6", "Tanuki", .low, "Ueno Park", .active⟩])).1 = some lopt ∧
      lopt[1]? = some ⟨"6", "Tanuki", .low, "Ueno Park", .active⟩) ∧
    (∃ lset, (captureMutate "1" (.rejected ⟨"Request timeout", 408, some "TIMEOUT"⟩)
        (some [⟨"1", "Kitsune", .high, "Shibuya District", .active⟩,
               ⟨"6", "Tanuki", .low, "Ueno Park", .active⟩])).2.1 = some lset ∧
      lset[1]? = some ⟨"6", "Tanuki", .low, "Ueno Park", .active⟩)) :=
  ⟨rfl, by decide,
   capture_independent_id_isolation
     [⟨"1", "Kitsune", .high, "Shibuya District", .active⟩,
      ⟨"6", "Tanuki", .low, "Ueno Park", .active⟩]
     "1" (.rejected ⟨"Request timeout", 408, some "TIMEOUT"⟩) 1
     ⟨"6", "Tanuki", .low, "Ueno Park", .active⟩ rfl (by decide)⟩

/-- Claim C3 (push merge): delivering a message that validates as a
`threat_level_change` event for the record `X` rewrites exactly the
`threatLevel` of `X` in the cache — its `status`, `name`, `location` and
`id` are kept, every record with a different id is untouched, the
connection bookkeeping is untouched — and the optional caller-supplied
callback receives the full event. -/
theorem push_threat_level_merge
    (s : StreamState) (l : List Anomaly) (i : Nat) (X : Anomaly)
    (fields : List (String × JValue)) (ev : ThreatLevelChangeEvent)
    (hc : s.cache = some l)
    (hv : threatLevelChangeEventSchema (.jobj fields) = some ev)
    (hX : l[i]? = some X) (hid : X.id = ev.anomalyId) :
    streamOnMessage (.json (.jobj fields)) s =
      ({ s with cache := some (l.map (threatLevelUpd ev)) },
       some ⟨ev, jlookup fields "anomalyName",
             jlookup fields "previousThreatLevel"⟩) ∧
    (l.map (threatLevelUpd ev))[i]? =
      some { X with threatLevel := ev.newThreatLevel } ∧
    (∀ (j : Nat) (Y : Anomaly), l[j]? = some Y → Y.id ≠ ev.anomalyId →
      (l.map (threatLevelUpd ev))[j]? = some Y) := by
  refine ⟨?_, ?_, ?_⟩
  · simp only [streamOnMessage, tlceSchema_type hv, hv, handleThreatLevelChange, hc]
  · rw [List.getElem?_map, hX]
    simp [threatLevelUpd, hid]
  · intro j Y hj hne
    rw [List.getElem?_map, hj]
    simp [threatLevelUpd, hne]

/-- Witness for C3: a `threat_level_change` push for Kitsune raises its
threat level to critical, leaves its status ACTIVE, and is handed to the
callback. -/
theorem push_threat_level_merge_witness :
    (StreamState.mk true 0 none true
        (some [⟨"1", "Kitsune", .high, "Shibuya District", .active⟩])).cache =
      some [⟨"1", "Kitsune", .high, "Shibuya District", .active⟩] ∧
    threatLevelChangeEventSchema
        (.jobj [("type", JValue.jstr "threat_level_change"),
                ("anomalyId", JValue.jstr "1"),
                ("newThreatLevel", JValue.jstr "critical")]) =
      some ⟨"1", .critical⟩ ∧
    streamOnMessage
        (.json (.jobj [("type", JValue.jstr "threat_level_change"),
                       ("anomalyId", JValue.jstr "1"),
                       ("newThreatLevel", JValue.jstr "critical")]))
        (StreamState.mk true 0 none true
          (some [⟨"1", "Kitsune", .high, "Shibuya District", .active⟩])) =
      ({ StreamState.mk true 0 none true
          (some [⟨"1", "Kitsune", .high, "Shibuya District", .active⟩]) with
          cache := some ([⟨"1", "Kitsune", .high, "Shibuya District", .active⟩].map
            (threatLevelUpd ⟨"1", .critical⟩)) },
       some ⟨⟨"1", .critical⟩,
         jlookup [("type", JValue.jstr "threat_level_change"),
                  ("anomalyId", JValue.jstr "1"),
                  ("newThreatLevel", JValue.jstr "critical")] "anomalyName",
         jlookup [("type", JValue.jstr "threat_level_change"),
                  ("anomalyId", JValue.jstr "1"),
                  ("newThreatLevel", JValue.jstr "critical")] "previousThreatLevel"⟩) ∧
    ([(⟨"1", "Kitsune", .high, "Shibuya District", .active⟩ : Anomaly)].map
        (threatLevelUpd ⟨"1", .critical⟩))[0]? =
      some ⟨"1", "Kitsune", .critical, "Shibuya District", .active⟩ :=
  ⟨rfl, rfl,
   (push_threat_level_merge
      (StreamState.mk true 0 none true
        (some [⟨"1", "Kitsune", .high, "Shibuya District", .active⟩]))
      [⟨"1", "Kitsune", .high, "Shibuya District", .active⟩] 0
      ⟨"1", "Kitsune", .high, "Shibuya District", .active⟩
      [("type", JValue.jstr "threat_level_change"),
       ("anomalyId", JValue.jstr "1"),
       ("newThreatLevel", JValue.jstr "critical")]
      ⟨"1", .critical⟩ rfl rfl rfl rfl).1,
   (push_threat_level_merge
      (StreamState.mk true 0 none true
        (some [⟨"1", "Kitsune", .high, "Shibuya District", .active⟩]))
      [⟨"1", "Kitsune", .high, "Shibuya District", .active⟩] 0
      ⟨"1", "Kitsune", .high, "Shibuya District", .active⟩
      [("type", JValue.jstr "threat_level_change"),
       ("anomalyId", JValue.jstr "1"),
       ("newThreatLevel", JValue.jstr "critical")]
      ⟨"1", .critical⟩ rfl rfl rfl rfl).2.1⟩

/-- Claim C4 (malformed push tolerance): a message whose data is invalid
JSON, or valid JSON rejected by `threatLevelChangeEventSchema` (which
covers wrong shapes and every unrecognized `type`), leaves the whole
subscriber state — cache, channel handle, connected flag, reconnect
bookkeeping — byte-for-byte unchanged and produces no callback; the
handler is a total function, so no error reaches the caller and the
channel is not terminated. -/
theorem malformed_push_tolerance (s : StreamState) (raw : RawMessage)
    (h : raw = .malformed ∨
         ∃ v, raw = .json v ∧ threatLevelChangeEventSchema v = none) :
    streamOnMessage raw s = (s, none) := by
  rcases h with rfl | ⟨v, rfl, hnone⟩
  · rfl
  · cases v
    case jobj fields =>
      simp only [streamOnMessage, hnone]
      split <;> rfl
    all_goals rfl

/-- Witness for C4: invalid JSON, a JSON string, an out-of-enum
`threat_level_change` payload and an unknown `type` all leave a concrete
subscriber state unchanged. -/
theorem malformed_push_tolerance_witness :
    streamOnMessage .malformed
        (StreamState.mk true 3 none true
          (some [⟨"1", "Kitsune", .high, "Shibuya District", .active⟩])) =
      (StreamState.mk true 3 none true
        (some [⟨"1", "Kitsune", .high, "Shibuya District", .active⟩]), none) ∧
    threatLevelChangeEventSchema (.jstr "hello") = none ∧
    streamOnMessage (.json (.jstr "hello"))
        (StreamState.mk true 3 none true
          (some [⟨"1", "Kitsune", .high, "Shibuya District", .active⟩])) =
      (StreamState.mk true 3 none true
        (some [⟨"1", "Kitsune", .high, "Shibuya District", .active⟩]), none) ∧
    threatLevelChangeEventSchema
        (.jobj [("type", JValue.jstr "threat_level_change"),
                ("anomalyId", JValue.jstr "1"),
                ("newThreatLevel", JValue.jstr "apocalyptic")]) = none ∧
    streamOnMessage
        (.json (.jobj [("type", JValue.jstr "threat_level_change"),
                       ("anomalyId", JValue.jstr "1"),
                       ("newThreatLevel", JValue.jstr "apocalyptic")]))
        (StreamState.mk true 3 none true
          (some [⟨"1", "Kitsune", .high, "Shibuya District", .active⟩])) =
      (StreamState.mk true 3 none true
        (some [⟨"1", "Kitsune", .high, "Shibuya District", .active⟩]), none) ∧
    threatLevelChangeEventSchema
        (.jobj [("type", JValue.jstr "connected"),
                ("message", JValue.jstr "SSE connection established")]) = none ∧
    streamOnMessage
        (.json (.jobj [("type", JValue.jstr "connected"),
                       ("message", JValue.jstr "SSE connection established")]))
        (StreamState.mk true 3 none true
          (some [⟨"1", "Kitsune", .high, "Shibuya District", .active⟩])) =
      (StreamState.mk true 3 none true
        (some [⟨"1", "Kitsune", .high, "Shibuya District", .active⟩]), none) :=
  ⟨malformed_push_tolerance _ _ (Or.inl rfl), rfl,
   malformed_push_tolerance _ _ (Or.inr ⟨.jstr "hello", rfl, rfl⟩), rfl,
   malformed_push_tolerance _ _ (Or.inr ⟨_, rfl, rfl⟩), rfl,
   malformed_push_tolerance _ _ (Or.inr ⟨_, rfl, rfl⟩)⟩

/-- Claim C5 (reconnect bound): the option defaults are `reconnectDelay =
3000` and `maxReconnectAttempts = 10`; while `reconnectAttempts <
maxReconnectAttempts` a channel error increments the counter and schedules
one reconnect timer for `reconnectDelay`; at the bound a channel error
schedules nothing and leaves the counter alone; a successful open resets
the counter to 0 and no other channel event ever does; and after
`maxReconnectAttempts` consecutive error/reconnect cycles with no
intervening open, the next error leaves a stuck state from which no event
sequence ever schedules anything again. -/
theorem reconnect_bound (cfg : StreamConfig) :
    (({} : StreamConfig).reconnectDelay = 3000 ∧
     ({} : StreamConfig).maxReconnectAttempts = 10) ∧
    (∀ s : StreamState, s.eventSource = true →
      s.reconnectAttempts < cfg.maxReconnectAttempts →
      streamStep cfg .errorEv s =
        { s with eventSource := false, isConnected := false,
                 reconnectAttempts := s.reconnectAttempts + 1,
                 pendingTimer := some cfg.reconnectDelay }) ∧
    (∀ s : StreamState, s.eventSource = true →
      cfg.maxReconnectAttempts ≤ s.reconnectAttempts →
      streamStep cfg .errorEv s =
        { s with eventSource := false, isConnected := false }) ∧
    (∀ s : StreamState, s.eventSource = true →
      streamStep cfg .openEv s =
        { s with reconnectAttempts := 0, isConnected := true }) ∧
    (∀ (s : StreamState) (ev : StreamEvent), ev ≠ StreamEvent.openEv →
      (streamStep cfg ev s).reconnectAttempts = 0 → s.reconnectAttempts = 0) ∧
    (∀ (cache : AnomaliesCache) (k : Nat), k ≤ cfg.maxReconnectAttempts →
      (errRound cfg)^[k] ⟨true, 0, none, true, cache⟩ =
        ⟨true, k, none, decide (k = 0), cache⟩) ∧
    (∀ (cache : AnomaliesCache) (evs : List StreamEvent),
      streamRun cfg evs
        (streamStep cfg .errorEv
          ((errRound cfg)^[cfg.maxReconnectAttempts] ⟨true, 0, none, true, cache⟩)) =
      streamStep cfg .errorEv
        ((errRound cfg)^[cfg.maxReconnectAttempts] ⟨true, 0, none, true, cache⟩)) := by
  have htrace : ∀ (cache : AnomaliesCache) (k : Nat),
      k ≤ cfg.maxReconnectAttempts →
      (errRound cfg)^[k] ⟨true, 0, none, true, cache⟩ =
        ⟨true, k, none, decide (k = 0), cache⟩ := by
    intro cache k hk
    induction k with
    | zero => rfl
    | succ n ih =>
      have hlt : n < cfg.maxReconnectAttempts := hk
      rw [Function.iterate_succ_apply', ih (Nat.le_of_succ_le hk)]
      simp [errRound, streamStep, streamOnError, streamTimerFire, streamConnect, hlt]
  have hfinal : ∀ cache : AnomaliesCache,
      streamStep cfg .errorEv
          ((errRound cfg)^[cfg.maxReconnectAttempts] ⟨true, 0, none, true, cache⟩) =
        ⟨false, cfg.maxReconnectAttempts, none, false, cache⟩ := by
    intro cache
    rw [htrace cache _ (Nat.le_refl _)]
    simp [streamStep, streamOnError]
  refine ⟨⟨rfl, rfl⟩, ?_, ?_, ?_, ?_, htrace, ?_⟩
  · intro s hES hlt
    simp [streamStep, hES, streamOnError, hlt]
  · intro s hES hge
    simp [streamStep, hES, streamOnError, Nat.not_lt.mpr hge]
  · intro s hES
    simp [streamStep, hES, streamOnOpen]
  · intro s ev hne h0
    cases ev with
    | openEv => exact absurd rfl hne
    | errorEv =>
      by_cases hES : s.eventSource
      · simp only [streamStep, hES, if_pos, streamOnError] at h0
        split at h0
        · exact absurd h0 (Nat.succ_ne_zero _)
        · exact h0
      · simpa [streamStep, hES] using h0
    | messageEv raw =>
      by_cases hES : s.eventSource
      · rw [← (streamOnMessage_only_cache raw s).2.1]
        simpa [streamStep, hES] using h0
      · simpa [streamStep, hES] using h0
    | timerEv =>
      rcases hpt : s.pendingTimer with _ | d
      · simpa [streamStep, streamTimerFire, hpt] using h0
      · simp only [streamStep, streamTimerFire, hpt, streamConnect] at h0
        split at h0 <;> exact h0
  · intro cache evs
    rw [hfinal]
    exact streamRun_stuck cfg _ rfl rfl evs

/-- Witness for C5 at `reconnectDelay = 100`, `maxReconnectAttempts = 2`:
the first error schedules a 100-unit timer and bumps the counter, two full
error/reconnect cycles saturate the counter at 2, a third error schedules
nothing, and the resulting state is stuck under further events. -/
theorem reconnect_bound_witness :
    ((StreamState.mk true 0 none false none).eventSource = true ∧
     (StreamState.mk true 0 none false none).reconnectAttempts < 2) ∧
    streamStep ⟨100, 2⟩ .errorEv (StreamState.mk true 0 none false none) =
      StreamState.mk false 1 (some 100) false none ∧
    (errRound ⟨100, 2⟩)^[2] (StreamState.mk true 0 none true none) =
      StreamState.mk true 2 none false none ∧
    streamStep ⟨100, 2⟩ .errorEv (StreamState.mk true 2 none false none) =
      StreamState.mk false 2 none false none ∧
    streamRun ⟨100, 2⟩ [.errorEv, .timerEv, .openEv, .messageEv .malformed]
        (streamStep ⟨100, 2⟩ .errorEv
          ((errRound ⟨100, 2⟩)^[2] (StreamState.mk true 0 none true none))) =
      streamStep ⟨100, 2⟩ .errorEv
        ((errRound ⟨100, 2⟩)^[2] (StreamState.mk true 0 none true none)) :=
  ⟨⟨rfl, by decide⟩,
   (reconnect_bound ⟨100, 2⟩).2.1 (StreamState.mk true 0 none false none) rfl (by decide),
   (reconnect_bound ⟨100, 2⟩).2.2.2.2.2.1 none 2 (by decide),
   (reconnect_bound ⟨100, 2⟩).2.2.1 (StreamState.mk true 2 none false none) rfl (by decide),
   (reconnect_bound ⟨100, 2⟩).2.2.2.2.2.2 none
     [.errorEv, .timerEv, .openEv, .messageEv .malformed]⟩

/-- Claim C9 (teardown cleanliness): `disconnect()` clears any pending
reconnect timer, closes the channel handle, resets the attempt counter,
clears the connected flag and does not touch the cache; it is idempotent;
and from the disconnected state no sequence of channel events ever changes
the state again — in particular no further store write occurs from this
subscription. -/
theorem disconnect_idempotent_clean (cfg : StreamConfig) (s : StreamState) :
    (streamDisconnect s).pendingTimer = none ∧
    (streamDisconnect s).eventSource = false ∧
    (streamDisconnect s).reconnectAttempts = 0 ∧
    (streamDisconnect s).isConnected = false ∧
    (streamDisconnect s).cache = s.cache ∧
    streamDisconnect (streamDisconnect s) = streamDisconnect s ∧
    (∀ evs, streamRun cfg evs (streamDisconnect s) = streamDisconnect s) :=
  ⟨rfl, rfl, rfl, rfl, rfl, rfl,
   fun evs => streamRun_stuck cfg _ rfl rfl evs⟩

/-- Claim C6 (capture route classification): `POST
/api/anomalies/[id]/capture` answers 404 with a `success: false` body
exactly when the id matches no record; 400 with an "already captured"
error exactly when the matched record is CAPTURED; and on an ACTIVE match
it answers the simulated 500 failure leaving the store unchanged when the
random sample is below 0.3, otherwise it flips the record to CAPTURED in
the store and returns it in a `{ success: true, anomaly }` body. -/
theorem capture_route_classification (id : String) (rand : ℚ) (anomalies : List Anomaly) :
    ((capturePOST id rand anomalies).1.status = 404 ↔
      findIndexBy (fun a => a.id == id) anomalies = none) ∧
    (findIndexBy (fun a => a.id == id) anomalies = none →
      capturePOST id rand anomalies =
        (⟨404, errBody ("Anomaly with id \"" ++ id ++ "\" not found")⟩, anomalies)) ∧
    ((capturePOST id rand anomalies).1.status = 400 ↔
      ∃ (i : Nat) (x : Anomaly),
        findIndexBy (fun a => a.id == id) anomalies = some i ∧
        anomalies[i]? = some x ∧ x.status = .captured) ∧
    (∀ (i : Nat) (x : Anomaly),
      findIndexBy (fun a => a.id == id) anomalies = some i →
      anomalies[i]? = some x → x.status = .captured →
      capturePOST id rand anomalies =
        (⟨400, errBody ("Anomaly \"" ++ x.name ++ "\" is already captured")⟩, anomalies)) ∧
    (∀ (i : Nat) (x : Anomaly),
      findIndexBy (fun a => a.id == id) anomalies = some i →
      anomalies[i]? = some x → x.status = .active → rand < 3 / 10 →
      capturePOST id rand anomalies =
        (⟨500, errBody ("Capture failed! " ++ x.name ++ " escaped during the capture attempt")⟩,
         anomalies)) ∧
    (∀ (i : Nat) (x : Anomaly),
      findIndexBy (fun a => a.id == id) anomalies = some i →
      anomalies[i]? = some x → x.status = .active → ¬ rand < 3 / 10 →
      capturePOST id rand anomalies =
        (⟨200, .jobj [("success", .jbool true),
                      ("anomaly", ({ x with status := .captured } : Anomaly).toJValue)]⟩,
         anomalies.set i { x with status := .captured })) := by
  rcases hfi : findIndexBy (fun a => a.id == id) anomalies with _ | i
  · have hpost : capturePOST id rand anomalies =
        (⟨404, errBody ("Anomaly with id \"" ++ id ++ "\" not found")⟩, anomalies) := by
      simp [capturePOST, hfi]
    refine ⟨by simp [hpost, hfi], fun _ => hpost, by simp [hpost, hfi], ?_, ?_, ?_⟩ <;>
    · intro i x h1
      exact absurd h1 (by simp)
  · obtain ⟨x0, hx0, _⟩ := findIndexBy_some hfi
    have hinj : ∀ {i' : Nat} {x' : Anomaly},
        (some i : Option Nat) = some i' →
        anomalies[i']? = some x' → i' = i ∧ x' = x0 := by
      intro i' x' h1 h2
      injection h1 with h1
      subst h1
      rw [hx0] at h2
      injection h2 with h2
      exact ⟨rfl, h2.symm⟩
    rcases hst : x0.status with _ | _
    · by_cases hr : rand < 3 / 10
      · have hpost : capturePOST id rand anomalies =
            (⟨500, errBody
                ("Capture failed! " ++ x0.name ++ " escaped during the capture attempt")⟩,
             anomalies) := by
          simp [capturePOST, hfi, hx0, hst, hr]
        refine ⟨by simp [hpost, hfi], ?_, ?_, ?_, ?_, ?_⟩
        · intro h
          exact absurd h (by simp)
        · refine iff_of_false (by simp [hpost]) ?_
          rintro ⟨i', x', h1, h2, h3⟩
          obtain ⟨-, rfl⟩ := hinj h1 h2
          rw [hst] at h3
          exact absurd h3 (by simp)
        · intro i' x' h1 h2 h3
          obtain ⟨-, rfl⟩ := hinj h1 h2
          rw [hst] at h3
          exact absurd h3 (by simp)
        · intro i' x' h1 h2 h3 h4
          obtain ⟨-, rfl⟩ := hinj h1 h2
          exact hpost
        · intro i' x' h1 h2 h3 h4
          exact absurd hr h4
      · have hpost : capturePOST id rand anomalies =
            (⟨200, .jobj [("success", .jbool true),
                ("anomaly", ({ x0 with status := .captured } : Anomaly).toJValue)]⟩,
             anomalies.set i { x0 with status := .captured }) := by
          simp [capturePOST, hfi, hx0, hst, hr, anomalySchema_toJValue]
        refine ⟨by simp [hpost, hfi], ?_, ?_, ?_, ?_, ?_⟩
        · intro h
          exact absurd h (by simp)
        · refine iff_of_false (by simp [hpost]) ?_
          rintro ⟨i', x', h1, h2, h3⟩
          obtain ⟨-, rfl⟩ := hinj h1 h2
          rw [hst] at h3
          exact absurd h3 (by simp)
        · intro i' x' h1 h2 h3
          obtain ⟨-, rfl⟩ := hinj h1 h2
          rw [hst] at h3
          exact absurd h3 (by simp)
        · intro i' x' h1 h2 h3 h4
          exact absurd h4 hr
        · intro i' x' h1 h2 h3 h4
          obtain ⟨rfl, rfl⟩ := hinj h1 h2
          exact hpost
    · have hpost : capturePOST id rand anomalies =
          (⟨400, errBody ("Anomaly \"" ++ x0.name ++ "\" is already captured")⟩, anomalies) := by
        simp [capturePOST, hfi, hx0, hst]
      refine ⟨by simp [hpost, hfi], ?_,
              iff_of_true (by simp [hpost]) ⟨i, x0, rfl, hx0, hst⟩, ?_, ?_, ?_⟩
      · intro h
        exact absurd h (by simp)
      · intro i' x' h1 h2 h3
        obtain ⟨-, rfl⟩ := hinj h1 h2
        exact hpost
      · intro i' x' h1 h2 h3 h4
        obtain ⟨-, rfl⟩ := hinj h1 h2
        rw [hst] at h3
        exact absurd h3 (by simp)
      · intro i' x' h1 h2 h3 h4
        obtain ⟨-, rfl⟩ := hinj h1 h2
        rw [hst] at h3
        exact absurd h3 (by simp)

/-- Witness for C6 on the reference store: an unknown id answers 404, the
already-captured Yurei answers 400, and capturing Kitsune answers 500
(store unchanged) under a low random sample and 200 (Kitsune flipped to
CAPTURED) under a high one. -/
theorem capture_route_classification_witness :
    (findIndexBy (fun a => a.id == "99") mockAnomalies = none ∧
     capturePOST "99" (1 / 2) mockAnomalies =
       (⟨404, errBody "Anomaly with id \"99\" not found"⟩, mockAnomalies)) ∧
    (findIndexBy (fun a => a.id == "5") mockAnomalies = some 4 ∧
     mockAnomalies[4]? = some ⟨"5", "Yurei", .low, "Yanaka Cemetery", .captured⟩ ∧
     capturePOST "5" (1 / 2) mockAnomalies =
       (⟨400, errBody "Anomaly \"Yurei\" is already captured"⟩, mockAnomalies)) ∧
    ((1 / 5 : ℚ) < 3 / 10 ∧
     capturePOST "1" (1 / 5) mockAnomalies =
       (⟨500, errBody "Capture failed! Kitsune escaped during the capture attempt"⟩,
        mockAnomalies)) ∧
    (¬ (1 / 2 : ℚ) < 3 / 10 ∧
     capturePOST "1" (1 / 2) mockAnomalies =
       (⟨200, .jobj [("success", .jbool true),
          ("anomaly", (⟨"1", "Kitsune", .high, "Shibuya District", .captured⟩ :
            Anomaly).toJValue)]⟩,
        mockAnomalies.set 0 ⟨"1", "Kitsune", .high, "Shibuya District", .captured⟩)) :=
  ⟨⟨rfl, (capture_route_classification "99" (1 / 2) mockAnomalies).2.1 rfl⟩,
   ⟨rfl, rfl,
    (capture_route_classification "5" (1 / 2) mockAnomalies).2.2.2.1 4
      ⟨"5", "Yurei", .low, "Yanaka Cemetery", .captured⟩ rfl rfl rfl⟩,
   ⟨by norm_num,
    (capture_route_classification "1" (1 / 5) mockAnomalies).2.2.2.2.1 0
      ⟨"1", "Kitsune", .high, "Shibuya District", .active⟩ rfl rfl rfl (by norm_num)⟩,
   ⟨by norm_num,
    (capture_route_classification "1" (1 / 2) mockAnomalies).2.2.2.2.2 0
      ⟨"1", "Kitsune", .high, "Shibuya District", .active⟩ rfl rfl rfl (by norm_num)⟩⟩

/-- Claim C2 (fetch gateway, recorded divergence): the bulk-read route
answers 200 with the documented `{ success: true, data: Anomaly[] }`
envelope, yet `fetchAnomalies` validates that whole envelope against the
bare-array schema and therefore fails with a validation error on the
server's own success response; it only returns the record list when the
body is a bare `Anomaly[]` array, the shape the repository's route test
and client tests assume. -/
theorem fetch_envelope_validation_bug :
    (routeGETAnomalies mockAnomalies).status = 200 ∧
    fetchAnomalies (.resolved (routeGETAnomalies mockAnomalies).body) =
      .error .validation ∧
    fetchAnomalies (.resolved (.jarr (mockAnomalies.map Anomaly.toJValue))) =
      .ok mockAnomalies :=
  ⟨rfl, rfl, rfl⟩

end TAMS
